import Mathlib

/-
  Verification development for the grab-ada-kb article synchronization app
  (src/app.py).  The Python functions the claims concern are embedded below
  as executable Lean definitions, keeping the source names:

  - is_testing_article                         (content classifier)
  - convert_to_ada_format                      (outbound payload builder)
  - compare_articles_detailed                  (reconciliation engine)
  - get_ada_articles                           (paginated fetcher)
  - delete_ada_article / bulk_delete_ada_articles
  - create_ada_article_with_status / create_articles_individually_with_status

  Modelling conventions:
  - A Python value that can be an int or a str is modelled by PyId; the
    Python str() conversion is pyStr.
  - A missing dict key is modelled by Option (none = key absent).
  - Python set iteration order is unspecified; the comparison function takes
    enumeration parameters which, to model a Python set, must produce a
    permutation of the distinct inserted keys.
  - HTTP traffic is modelled by a function from call index (or page number)
    to an abstract HttpResult / PageResponse.  The body field stands for the
    best-effort decoded response body (parsed JSON if available, else raw
    text); the reason field stands for the str() rendering of a raised
    requests exception.
-/

namespace GrabAdaKB

/-! ### Python primitives -/

/-- A Python value that is either an int or a str (article ids come in both
shapes). -/
inductive PyId where
  | int (n : Int)
  | str (s : String)
deriving DecidableEq

/-- Python str() applied to a PyId. -/
def pyStr : PyId → String
  | .int n => toString n
  | .str s => s

/-- Python x or dflt for strings: the empty string is falsy. -/
def pyOr (s dflt : String) : String := if s = "" then dflt else s

/-- Python x or dflt where x is an optional string (None and the empty
string are falsy). -/
def pyOrOpt (o : Option String) (dflt : String) : String :=
  match o with
  | some s => pyOr s dflt
  | none => dflt

/-- The whitespace characters of the Python re \s class and of str.strip
(ASCII range). -/
def pyIsSpace (c : Char) : Bool :=
  c == ' ' || c == '\t' || c == '\n' || c == '\r' ||
  c == Char.ofNat 11 || c == Char.ofNat 12

/-- Python str.strip on a character list. -/
def pyStrip (l : List Char) : List Char :=
  ((l.dropWhile pyIsSpace).reverse.dropWhile pyIsSpace).reverse

/-- Decides whether the first list is a prefix of the second. -/
def isPrefixL : List Char → List Char → Bool
  | [], _ => true
  | _ :: _, [] => false
  | a :: as, b :: bs => a == b && isPrefixL as bs

/-- Decides whether the first list occurs as a contiguous substring of the
second (the Python in operator on strings). -/
def isInfixL (pat : List Char) : List Char → Bool
  | [] => pat.isEmpty
  | c :: t => isPrefixL pat (c :: t) || isInfixL pat t

/-- Python kw in s for strings. -/
def pyInStr (pat s : String) : Bool := isInfixL pat.toList s.toList

/-- Python str.lower (ASCII model, all strings in the claims are ASCII). -/
def pyLowerL (l : List Char) : List Char := l.map Char.toLower

/-- True when the predicate holds at some suffix of the list: models an
re.search scan over all start positions. -/
def anySuffix (p : List Char → Bool) : List Char → Bool
  | [] => p []
  | c :: t => p (c :: t) || anySuffix p t

/-- A single-quote character, used to build the explanation strings of the
classifier. -/
def sq : String := String.singleton (Char.ofNat 39)

/-! ### Content classifier (src/app.py, is_testing_article)

The input record: the fields hold the Python str() of the id, name and body
values, with the empty string when the key is absent (the source reads them
with article.get(key, a default of the empty string) wrapped in str()). -/

structure TArticle where
  id : String
  name : String
  body : String
deriving DecidableEq

/-- The fixed keyword list of is_testing_article, in source order. -/
def test_keywords : List String :=
  ["test", "testing", "qa", "quality assurance", "dummy", "sample",
   "lorem ipsum", "placeholder", "debug", "dev", "development",
   "staging", "temp", "temporary", "draft", "wip", "work in progress",
   "do not publish", "internal", "beta", "alpha", "experiment",
   "trial", "demo", "example", "mock", "fake", "zzz", "xxx",
   "asdf", "qwerty", "123test", "test123", "testtest"]

/-- Matches the regex test followed by a digit at the head of the list
(the minimal crucial part of the pattern with one or more digits). -/
def startsTestDigit (s : List Char) : Bool :=
  isPrefixL "test".toList s &&
    (match s.drop 4 with | c :: _ => c.isDigit | [] => false)

/-- Matches a digit followed by test at the head of the list. -/
def startsDigitTest (s : List Char) : Bool :=
  match s with
  | c :: rest => c.isDigit && isPrefixL "test".toList rest
  | [] => false

/-- Matches the given digit string followed by one more digit at the head of
the list (regexes 999 or 000 followed by digits). -/
def startsDigitsThenDigit (pat : String) (s : List Char) : Bool :=
  isPrefixL pat.toList s &&
    (match s.drop pat.toList.length with | c :: _ => c.isDigit | [] => false)

/-- Matches five equal consecutive characters at the head of the list (the
regex of a character back-referenced four or more times). -/
def startsRepeat5 (s : List Char) : Bool :=
  match s with
  | a :: b :: c :: d :: e :: _ => a == b && a == c && a == d && a == e
  | _ => false

/-- Matches the given word followed by a whitespace character at the head of
the list (the anchored title regex of check 5). -/
def wordThenSpace (w : String) (s : List Char) : Bool :=
  isPrefixL w.toList s &&
    (match s.drop w.toList.length with | c :: _ => pyIsSpace c | [] => false)

/-- Check 1 of is_testing_article: first keyword contained in the lowercased
title, with its explanation. -/
def rule_title (a : TArticle) : Option String :=
  (test_keywords.find? fun kw => isInfixL kw.toList (pyLowerL a.name.toList)).map
    fun kw => "Contains test-related word " ++ sq ++ kw ++ sq ++ " in the title"

/-- Check 2: first keyword contained in the first 200 characters of the
lowercased body. -/
def rule_body (a : TArticle) : Option String :=
  (test_keywords.find? fun kw =>
      isInfixL kw.toList ((pyLowerL a.body.toList).take 200)).map
    fun kw =>
      "Contains test-related word " ++ sq ++ kw ++ sq ++ " in the article content"

/-- Check 3: the six article-id regex patterns, in source order.  The two
test patterns carry the IGNORECASE flag, modelled by lowercasing the id. -/
def rule_id (a : TArticle) : Option String :=
  let idl := a.id.toList
  if anySuffix startsTestDigit (pyLowerL idl) then
    some ("Article ID follows pattern " ++ sq ++ "test" ++ sq ++
      " + numbers (e.g., test123)")
  else if anySuffix startsDigitTest (pyLowerL idl) then
    some ("Article ID follows pattern numbers + " ++ sq ++ "test" ++ sq ++
      " (e.g., 123test)")
  else if anySuffix (startsDigitsThenDigit "999") idl then
    some ("Article ID starts with " ++ sq ++ "999" ++ sq ++
      " which is commonly used for testing")
  else if anySuffix (startsDigitsThenDigit "000") idl then
    some ("Article ID starts with " ++ sq ++ "000" ++ sq ++
      " which is commonly used for testing")
  else if isInfixL "123456789".toList idl then
    some "Article ID contains sequential numbers (123456789) which suggests testing"
  else if isInfixL "987654321".toList idl then
    some "Article ID contains reverse sequential numbers (987654321) which suggests testing"
  else none

/-- Check 4: stripped lowercased body shorter than 10 characters. -/
def rule_short (a : TArticle) : Option String :=
  if (pyStrip (pyLowerL a.body.toList)).length < 10 then
    some "Article has very little content (less than 10 characters)"
  else none

/-- Check 5: lowercased title starts with a filler word then whitespace. -/
def rule_filler (a : TArticle) : Option String :=
  let nl := pyLowerL a.name.toList
  if wordThenSpace "test" nl || wordThenSpace "sample" nl ||
      wordThenSpace "dummy" nl || wordThenSpace "placeholder" nl then
    some "Title starts with a test-related word (test, sample, dummy, or placeholder)"
  else none

/-- Check 6a: five equal consecutive characters somewhere in the lowercased
title. -/
def rule_repeat (a : TArticle) : Option String :=
  if anySuffix startsRepeat5 (pyLowerL a.name.toList) then
    some ("Title contains repeated characters (like " ++ sq ++ "aaaaa" ++ sq ++
      " or " ++ sq ++ "11111" ++ sq ++ ") which suggests testing")
  else none

/-- Check 6b: a keyboard sequence in the lowercased title. -/
def rule_mash (a : TArticle) : Option String :=
  let nl := pyLowerL a.name.toList
  if isInfixL "12345".toList nl || isInfixL "abcde".toList nl ||
      isInfixL "qwert".toList nl then
    some "Title contains keyboard sequences (12345, abcde, qwert) which suggests testing"
  else none

/-- is_testing_article from src/app.py: the chain of checks with early
return, first matching check supplies the explanation; (false, empty string)
when nothing matches. -/
def is_testing_article (a : TArticle) : Bool × String :=
  match rule_title a with
  | some r => (true, r)
  | none =>
    match rule_body a with
    | some r => (true, r)
    | none =>
      match rule_id a with
      | some r => (true, r)
      | none =>
        match rule_short a with
        | some r => (true, r)
        | none =>
          match rule_filler a with
          | some r => (true, r)
          | none =>
            match rule_repeat a with
            | some r => (true, r)
            | none =>
              match rule_mash a with
              | some r => (true, r)
              | none => (false, "")

/-- The classifier rules in the evaluation order stated by the spec: title
keyword, body keyword, id patterns, short body, leading filler word,
repeated characters, keyboard mash. -/
def classifier_rules : List (TArticle → Option String) :=
  [rule_title, rule_body, rule_id, rule_short, rule_filler, rule_repeat, rule_mash]

/-- First-matching-rule evaluation of a rule list. -/
def firstSome (a : TArticle) : List (TArticle → Option String) → Option String
  | [] => none
  | r :: t =>
    match r a with
    | some s => some s
    | none => firstSome a t

/-! ### Source and destination article records -/

/-- An article extracted from the Grab feed (extract_articles): id, name as
delivered (none models Python None), and the cleaned body text. The uuid and
raw body fields pass through the functions below untouched and are omitted. -/
structure GrabArticle where
  id : PyId
  name : Option String
  body : String
deriving DecidableEq

/-- An article record returned by the Ada list endpoint.  id is none when
the id key is absent from the JSON record; knowledge_source_id likewise. -/
structure AdaArticle where
  id : Option PyId
  name : String
  content : String
  knowledge_source_id : Option String
  language : String
  url : String
deriving DecidableEq

/-- The comparison key of a Grab article: str(article id). -/
def grabKey (a : GrabArticle) : String := pyStr a.id

/-- The comparison key of an Ada article: str(record.get(id, empty)), so the
empty string when the id key is absent. -/
def adaKey (a : AdaArticle) : String :=
  match a.id with
  | some v => pyStr v
  | none => ""

/-! ### Outbound payload builder (convert_to_ada_format) -/

/-- The payload shape sent to the Ada bulk create endpoint. -/
structure AdaPayload where
  id : String
  name : String
  content : String
  knowledge_source_id : String
  url : String
  language : String
deriving DecidableEq

/-- convert_to_ada_format from src/app.py: builds one Ada payload per input
article, deriving the url from the user type, applying the optional language
override and the optional name prefix (both skipped when None or empty,
matching Python truthiness). -/
def convert_to_ada_format (articles : List GrabArticle)
    (user_type language_locale knowledge_source_id : String)
    (override_language : Option String) ( name_prefix : Option String) :
    List AdaPayload :=
  let language_to_use :=
    match override_language with
    | some l => pyOr l language_locale
    | none => language_locale
  articles.map fun article =>
    let article_url :=
      if user_type = "moveitpassenger" ∨ user_type = "moveitdriver" then
        let mapped_user_type :=
          if user_type = "moveitpassenger" then "passenger" else "driver"
        "https://help.moveit.com.ph/" ++ mapped_user_type ++ "/" ++
          language_locale ++ "/" ++ pyStr article.id
      else
        "https://help.grab.com/" ++ user_type ++ "/" ++
          language_locale ++ "/" ++ pyStr article.id
    let base_name := pyOrOpt article.name ("Article " ++ pyStr article.id)
    let article_name :=
      match name_prefix with
      | some p => if p = "" then base_name else p ++ base_name
      | none => base_name
    { id := pyStr article.id
      name := article_name
      content := pyOr article.body ""
      knowledge_source_id := knowledge_source_id
      url := article_url
      language := language_to_use }

/-! ### Reconciliation engine (compare_articles_detailed)

Python builds two id sets and two id-keyed dicts, then iterates over the
sets.  A set is modelled by its list of distinct keys in insertion order
(insertKey / insertAll); iteration order over a Python set is unspecified,
so the function takes two enumeration parameters orderG and orderA; a
faithful enumeration returns a permutation of the given distinct keys. -/

/-- Python set.add: append the key when it is not yet present. -/
def insertKey (ks : List String) (k : String) : List String :=
  if k ∈ ks then ks else ks ++ [k]

/-- Insert all keys of a list into a set, left to right. -/
def insertAll : List String → List String → List String
  | ks, [] => ks
  | ks, k :: t => insertAll (insertKey ks k) t

/-- The dict comprehension keyed by str(id): a later article with the same
key overwrites an earlier one, hence the last matching element. -/
def grabDict (grab : List GrabArticle) (k : String) : Option GrabArticle :=
  (grab.filter fun a => grabKey a == k).getLast?

/-- The Ada dict built in the loop that skips records whose key is the
empty string; later records with the same key overwrite earlier ones. -/
def adaDict (ada : List AdaArticle) (k : String) : Option AdaArticle :=
  ((ada.filter fun a => adaKey a != "").filter fun a => adaKey a == k).getLast?

/-- The record returned by compare_articles_detailed. -/
structure CompareResult where
  articles_to_delete : List AdaArticle
  articles_to_add : List GrabArticle
  articles_existing : List (GrabArticle × AdaArticle)
  grab_total : Nat
  ada_total : Nat
  grab_ids : List String
  ada_ids : List String
deriving DecidableEq

/-- compare_articles_detailed from src/app.py.  grab ids are str(id) of
every Grab article; Ada ids are str(record.get(id, empty)) of every Ada
record, skipping empty keys.  The three outputs iterate the two id sets
(through the enumeration parameters) and look the articles up in the two
dicts. -/
def compare_articles_detailed (orderG orderA : List String → List String)
    (grab : List GrabArticle) (ada : List AdaArticle) : CompareResult :=
  let gids := insertAll [] (grab.map grabKey)
  let aids := insertAll [] ((ada.map adaKey).filter fun k => k != "")
  let articles_to_delete := (orderA aids).filterMap fun k =>
    if k ∈ gids then none else adaDict ada k
  let articles_to_add := (orderG gids).filterMap fun k =>
    if k ∈ aids then none else grabDict grab k
  let articles_existing := (orderG gids).filterMap fun k =>
    if k ∈ aids then
      (grabDict grab k).bind fun g => (adaDict ada k).map fun d => (g, d)
    else none
  { articles_to_delete := articles_to_delete
    articles_to_add := articles_to_add
    articles_existing := articles_existing
    grab_total := grab.length
    ada_total := ada.length
    grab_ids := gids
    ada_ids := aids }

/-! ### HTTP model for the per-item operations -/

/-- Outcome of one remote HTTP call.  response carries the final status,
the best-effort decoded body and the str() text of the exception that
raise_for_status would raise; timeout and connError carry the exception
text. -/
inductive HttpResult where
  | response (status : Nat) (body : String) (reason : String)
  | timeout (msg : String)
  | connError (msg : String)
deriving DecidableEq

/-- requests raise_for_status raises exactly for statuses 400 to 599. -/
def raisesForStatus (s : Nat) : Bool := 400 ≤ s && s < 600

/-- The success flag recorded to the call log by delete_ada_article. -/
def delete_log_success (s : Nat) : Bool := s == 200 || s == 204

/-- delete_ada_article from src/app.py: config check, DELETE call,
raise_for_status; any raised requests exception is caught and reported as a
failure tuple with the error text as detail. -/
def delete_ada_article (instance_name api_key article_id : String)
    (remote : HttpResult) : Bool × String :=
  if instance_name = "" ∨ api_key = "" ∨ article_id = "" then
    (false, "Missing configuration")
  else
    match remote with
    | .response s body reason =>
      if raisesForStatus s then
        (false, "Error: " ++ reason ++ ". Details: " ++ body)
      else
        (true, "Article deleted successfully")
    | .timeout m => (false, "Error: " ++ m ++ ". Details: ")
    | .connError m => (false, "Error: " ++ m ++ ". Details: ")

/-- create_ada_article_with_status from src/app.py: config check, POST of a
one-element array to the bulk endpoint; success exactly on status 200 or
201, otherwise a failure string carrying the status and decoded body; a
timeout or connection error becomes a failure with the exception text. -/
def create_ada_article_with_status (instance_name api_key : String)
    (article_data : AdaPayload) (remote : HttpResult) : Bool × String :=
  if instance_name = "" ∨ api_key = "" then
    (false, "Missing configuration")
  else
    match remote with
    | .response s body _ =>
      if s = 200 ∨ s = 201 then
        (true, body)
      else
        (false, "HTTP " ++ toString s ++ ": " ++ body)
    | .timeout _ => (false, "Request timed out")
    | .connError m => (false, "Error: " ++ m ++ ". Details: ")

/-! ### Bulk sync drivers -/

/-- The report returned by bulk_delete_ada_articles. -/
structure DeleteReport where
  successful : Nat
  failed : Nat
  successful_deletions : List String
  failed_deletions : List (String × String)
  total_processed : Nat
deriving DecidableEq

/-- The sequential loop of bulk_delete_ada_articles over the enumerated id
list; remote gives the outcome of the i-th call. -/
def bulk_delete_loop (instance_name api_key : String)
    (remote : Nat → HttpResult) :
    List (Nat × String) → List String × List (String × String)
  | [] => ([], [])
  | (i, aid) :: rest =>
    let r := delete_ada_article instance_name api_key aid (remote i)
    let p := bulk_delete_loop instance_name api_key remote rest
    if r.1 then (aid :: p.1, p.2) else (p.1, (aid, r.2) :: p.2)

/-- bulk_delete_ada_articles from src/app.py: rejects a missing config or an
empty id list, otherwise deletes the ids one by one, accumulating the
successful ids and the failed (id, error) pairs in input order. -/
def bulk_delete_ada_articles (instance_name api_key : String)
    (article_ids : List String) (remote : Nat → HttpResult) :
    Except String DeleteReport :=
  if instance_name = "" ∨ api_key = "" ∨ article_ids = [] then
    .error "Missing configuration or no articles to delete"
  else
    let p := bulk_delete_loop instance_name api_key remote article_ids.enum
    .ok
      { successful := p.1.length
        failed := p.2.length
        successful_deletions := p.1
        failed_deletions := p.2
        total_processed := article_ids.length }

/-- The report returned by create_articles_individually_with_status; the
success entries pair the payload with the response body, the failure entries
pair it with the error string. -/
structure CreateReport where
  successful : Nat
  failed : Nat
  successful_uploads : List (AdaPayload × String)
  failed_uploads : List (AdaPayload × String)
  total_processed : Nat
deriving DecidableEq

/-- The sequential loop of create_articles_individually_with_status. -/
def create_loop (instance_name api_key : String) (remote : Nat → HttpResult) :
    List (Nat × AdaPayload) → List (AdaPayload × String) × List (AdaPayload × String)
  | [] => ([], [])
  | (i, a) :: rest =>
    let r := create_ada_article_with_status instance_name api_key a (remote i)
    let p := create_loop instance_name api_key remote rest
    if r.1 then ((a, r.2) :: p.1, p.2) else (p.1, (a, r.2) :: p.2)

/-- create_articles_individually_with_status from src/app.py: config check,
conversion of the articles to Ada payloads, then one bulk-endpoint call per
payload, accumulating successes and failures in input order. -/
def create_articles_individually_with_status (articles : List GrabArticle)
    (instance_name knowledge_source_id api_key user_type language_locale : String)
    (override_language : Option String) ( name_prefix : Option String)
    (remote : Nat → HttpResult) : Except String CreateReport :=
  if instance_name = "" ∨ knowledge_source_id = "" ∨ api_key = "" then
    .error "Missing configuration"
  else
    let ada_articles := convert_to_ada_format articles user_type
      language_locale knowledge_source_id override_language name_prefix
    let p := create_loop instance_name api_key remote ada_articles.enum
    .ok
      { successful := p.1.length
        failed := p.2.length
        successful_uploads := p.1
        failed_uploads := p.2
        total_processed := ada_articles.length }

/-! ### Paginated fetcher (get_ada_articles) -/

/-- The pagination block of one list response: none models an absent key in
meta.pagination (or an absent meta / pagination object altogether). -/
structure PageMeta where
  current_page : Option Nat
  total_pages : Option Nat
deriving DecidableEq

/-- One response of the Ada list endpoint: final status, the data array
(empty when the data key is absent or empty), pagination metadata. -/
structure PageResponse where
  status : Nat
  data : List AdaArticle
  meta : PageMeta
deriving DecidableEq

/-- Result of get_ada_articles: configError models the missing-configuration
tuple, httpError the whole-fetch failure after raise_for_status, done
carries the accumulated articles, the number of page requests issued (the
call-log count) and whether the page-limit truncation warning fired. -/
inductive FetchOutcome where
  | configError
  | httpError (status : Nat)
  | fuelOut
  | done (articles : List AdaArticle) (requests : Nat) (truncated : Bool)
deriving DecidableEq

/-- The client-side knowledge-source filter applied to a fetched page when a
non-empty knowledge_source_id was supplied (Python truthiness: None and the
empty string skip the filter). -/
def ksFilter (ks : Option String) (l : List AdaArticle) : List AdaArticle :=
  match ks with
  | some k => if k = "" then l else l.filter fun a => a.knowledge_source_id == some k
  | none => l

/-- The while loop of get_ada_articles.  Each iteration: request the page,
fail the whole fetch on a 4xx/5xx status, stop on an empty data array,
otherwise accumulate the (possibly filtered) page and stop when the
pagination metadata does not announce further pages (both fields defaulting
as in the source: current_page to the page counter, total_pages to 1), or
when the page was shorter than the per_page value 100, or — with the
truncation warning — when the page counter exceeds 100.  The fuel argument
only bounds the recursion; 102 units are enough for every run. -/
def fetch_loop (remote : Nat → PageResponse) (ks : Option String) :
    Nat → Nat → List AdaArticle → Nat → FetchOutcome
  | 0, _, _, _ => .fuelOut
  | fuel + 1, page_count, acc, req =>
    if raisesForStatus (remote page_count).status then
      .httpError (remote page_count).status
    else if (remote page_count).data = [] then .done acc (req + 1) false
    else if (remote page_count).meta.total_pages.getD 1 ≤
        (remote page_count).meta.current_page.getD page_count then
      .done (acc ++ ksFilter ks (remote page_count).data) (req + 1) false
    else if (remote page_count).data.length < 100 then
      .done (acc ++ ksFilter ks (remote page_count).data) (req + 1) false
    else if 100 < page_count then
      .done (acc ++ ksFilter ks (remote page_count).data) (req + 1) true
    else
      fetch_loop remote ks fuel (page_count + 1)
        (acc ++ ksFilter ks (remote page_count).data) (req + 1)

/-- get_ada_articles from src/app.py: config check, then the pagination loop
starting at page 1. -/
def get_ada_articles (instance_name api_key : String) (ks : Option String)
    (remote : Nat → PageResponse) : FetchOutcome :=
  if instance_name = "" ∨ api_key = "" then .configError
  else fetch_loop remote ks 102 1 [] 0

/-! ### Observable projections of the driver loops

The input-order projections that characterise the two driver reports: the
successes and failures are exactly the input items whose remote call
succeeded respectively failed, kept in input order. -/

/-- The ids of a delete batch whose call succeeded, in input order. -/
def delete_successes (instance_name api_key : String) (ids : List String)
    (remote : Nat → HttpResult) : List String :=
  (ids.enum.filter fun q =>
    (delete_ada_article instance_name api_key q.2 (remote q.1)).1).map Prod.snd

/-- The (id, error) pairs of a delete batch whose call failed, in input
order. -/
def delete_failures (instance_name api_key : String) (ids : List String)
    (remote : Nat → HttpResult) : List (String × String) :=
  (ids.enum.filter fun q =>
    !((delete_ada_article instance_name api_key q.2 (remote q.1)).1)).map
    fun q => (q.2, (delete_ada_article instance_name api_key q.2 (remote q.1)).2)

/-- The (payload, response) pairs of a create batch whose call succeeded, in
input order. -/
def create_successes (instance_name api_key : String) (payloads : List AdaPayload)
    (remote : Nat → HttpResult) : List (AdaPayload × String) :=
  (payloads.enum.filter fun q =>
    (create_ada_article_with_status instance_name api_key q.2 (remote q.1)).1).map
    fun q => (q.2, (create_ada_article_with_status instance_name api_key q.2 (remote q.1)).2)

/-- The (payload, error) pairs of a create batch whose call failed, in input
order. -/
def create_failures (instance_name api_key : String) (payloads : List AdaPayload)
    (remote : Nat → HttpResult) : List (AdaPayload × String) :=
  (payloads.enum.filter fun q =>
    !((create_ada_article_with_status instance_name api_key q.2 (remote q.1)).1)).map
    fun q => (q.2, (create_ada_article_with_status instance_name api_key q.2 (remote q.1)).2)

/-! ### Concrete records and streams used in the example theorems -/

/-- A Grab article with id 1. -/
def gArt1 : GrabArticle := ⟨.str "1", some "one", "body one"⟩

/-- A Grab article with id 2. -/
def gArt2 : GrabArticle := ⟨.str "2", some "two", "body two"⟩

/-- An Ada article with id a1 in knowledge source ks1. -/
def aArt1 : AdaArticle := ⟨some (.str "a1"), "n1", "c1", some "ks1", "en", "u1"⟩

/-- An Ada article with id a3 in knowledge source ks2. -/
def aArt3 : AdaArticle := ⟨some (.str "a3"), "n3", "c3", some "ks2", "en", "u3"⟩

/-- An Ada article whose record carries no id key at all. -/
def aNoId : AdaArticle := ⟨none, "n0", "c0", some "ks1", "en", "u0"⟩

/-- An Ada article with id 2 (matches gArt2). -/
def aId2 : AdaArticle := ⟨some (.str "2"), "n2", "c2", some "ks1", "en", "u2"⟩

/-- An Ada article with id 3. -/
def aId3 : AdaArticle := ⟨some (.int 3), "n3b", "c3b", some "ks1", "en", "u3b"⟩

/-- A sample payload for the create-operation theorems. -/
def somePayload : AdaPayload :=
  ⟨"7", "How to pay", "content", "ks1", "https://help.grab.com/driver/en-ph/7", "en-ph"⟩

/-- The C3 scenario page stream: two pages of three articles, then empty
pages; no pagination metadata anywhere. -/
def pages33 : Nat → PageResponse := fun p =>
  if p ≤ 2 then ⟨200, [aArt1, aId2, aArt3], ⟨none, none⟩⟩
  else ⟨200, [], ⟨none, none⟩⟩

/-- A page stream that never returns an empty page, never carries
pagination metadata and always answers 200. -/
def pagesNoMeta : Nat → PageResponse := fun _ =>
  ⟨200, [aArt1, aId2, aArt3], ⟨none, none⟩⟩

/-- A page stream of full pages (100 articles each) whose metadata always
announces further pages. -/
def pagesFull : Nat → PageResponse := fun _ =>
  ⟨200, List.replicate 100 aArt1, ⟨some 1, some 5⟩⟩

/-- A single page holding articles of two different knowledge sources. -/
def pagesKS : Nat → PageResponse := fun _ => ⟨200, [aArt1, aArt3], ⟨none, none⟩⟩

/-- A remote that serves 200 except for the second call, which gets a 500
response. -/
def remoteFailSecond : Nat → HttpResult := fun i =>
  if i = 1 then .response 500 "server error" "500 Server Error" else .response 200 "ok" ""

/-! ### Lemmas about the set model -/

theorem mem_insertKey {ks : List String} {a k : String} :
    k ∈ insertKey ks a ↔ k ∈ ks ∨ k = a := by
  unfold insertKey
  split
  · constructor
    · exact Or.inl
    · rintro (h | rfl)
      · exact h
      · assumption
  · simp [List.mem_append]

theorem insertKey_nodup {ks : List String} {a : String} (h : ks.Nodup) :
    (insertKey ks a).Nodup := by
  unfold insertKey
  split
  · exact h
  · simpa [List.nodup_append, h] using (by assumption : ¬ a ∈ ks)

theorem mem_insertAll (k : String) (l : List String) :
    ∀ ks, k ∈ insertAll ks l ↔ k ∈ ks ∨ k ∈ l := by
  induction l with
  | nil => intro ks; simp [insertAll]
  | cons a t ih =>
    intro ks
    rw [insertAll, ih, mem_insertKey]
    simp only [List.mem_cons]
    tauto

theorem insertAll_nodup (l : List String) :
    ∀ ks, ks.Nodup → (insertAll ks l).Nodup := by
  induction l with
  | nil => intro ks h; simpa [insertAll] using h
  | cons a t ih =>
    intro ks h
    rw [insertAll]
    exact ih _ (insertKey_nodup h)

theorem insertAll_eq_append (l : List String) :
    ∀ ks, (∀ x ∈ l, x ∉ ks) → l.Nodup → insertAll ks l = ks ++ l := by
  induction l with
  | nil => intro ks _ _; simp [insertAll]
  | cons a t ih =>
    intro ks hdis hnd
    have ha : a ∉ ks := hdis a (by simp)
    rw [insertAll]
    have step : insertKey ks a = ks ++ [a] := by simp [insertKey, ha]
    rw [step, ih (ks ++ [a]) ?_ (List.Nodup.of_cons hnd)]
    · simp
    · intro x hx
      simp only [List.mem_append, List.mem_singleton]
      rintro (hxs | rfl)
      · exact hdis x (by simp [hx]) hxs
      · exact (List.nodup_cons.mp hnd).1 hx

theorem insertAll_nil_eq {l : List String} (h : l.Nodup) : insertAll [] l = l := by
  simpa using insertAll_eq_append l [] (by simp) h

/-! ### Lemmas about the last-wins dict model -/

theorem keyedLast_some {α : Type} {key : α → String} {l : List α} {k : String} {a : α}
    (h : (l.filter fun x => key x == k).getLast? = some a) : a ∈ l ∧ key a = k := by
  have hm := List.mem_of_mem_getLast? h
  have hf := List.mem_filter.mp hm
  exact ⟨hf.1, by simpa using hf.2⟩

theorem keyedLast_isSome {α : Type} {key : α → String} {l : List α} {k : String}
    (h : ∃ a ∈ l, key a = k) : ((l.filter fun x => key x == k).getLast?).isSome := by
  rw [List.getLast?_isSome]
  intro hnil
  obtain ⟨a, ha, hk⟩ := h
  have := List.filter_eq_nil_iff.mp hnil a ha
  simp [hk] at this

theorem keyedLast_self {α : Type} {key : α → String} {l : List α}
    (hnd : (l.map key).Nodup) :
    ∀ {a : α}, a ∈ l → (l.filter fun x => key x == key a).getLast? = some a := by
  induction l with
  | nil => intro a ha; simp at ha
  | cons b t ih =>
    intro a ha
    have hnd' : key b ∉ t.map key ∧ (t.map key).Nodup :=
      List.nodup_cons.mp (by simpa using hnd)
    rcases List.mem_cons.mp ha with rfl | hat
    · have htail : t.filter (fun x => key x == key a) = [] := by
        rw [List.filter_eq_nil_iff]
        intro x hx
        simp only [beq_iff_eq]
        intro hxe
        exact hnd'.1 (List.mem_map.mpr ⟨x, hx, hxe⟩)
      simp [List.filter_cons, htail]
    · have hne : (key b == key a) = false := by
        simp only [beq_eq_false_iff_ne, ne_eq]
        intro he
        exact hnd'.1 (List.mem_map.mpr ⟨a, hat, he.symm⟩)
      simp only [List.filter_cons, hne, cond_false]
      exact ih hnd'.2 hat

theorem grabDict_some {grab : List GrabArticle} {k : String} {a : GrabArticle}
    (h : grabDict grab k = some a) : a ∈ grab ∧ grabKey a = k :=
  keyedLast_some h

theorem grabDict_isSome {grab : List GrabArticle} {k : String}
    (h : ∃ a ∈ grab, grabKey a = k) : (grabDict grab k).isSome :=
  keyedLast_isSome h

theorem grabDict_self {grab : List GrabArticle} (hnd : (grab.map grabKey).Nodup)
    {a : GrabArticle} (ha : a ∈ grab) : grabDict grab (grabKey a) = some a :=
  keyedLast_self hnd ha

theorem adaDict_some {ada : List AdaArticle} {k : String} {a : AdaArticle}
    (h : adaDict ada k = some a) : a ∈ ada ∧ adaKey a = k ∧ adaKey a ≠ "" := by
  have h2 := keyedLast_some h
  have h3 := List.mem_filter.mp h2.1
  refine ⟨h3.1, h2.2, ?_⟩
  simpa using h3.2

theorem adaDict_isSome {ada : List AdaArticle} {k : String}
    (h : ∃ a ∈ ada, adaKey a = k ∧ k ≠ "") : (adaDict ada k).isSome := by
  obtain ⟨a, ha, hk, hne⟩ := h
  exact keyedLast_isSome ⟨a, List.mem_filter.mpr ⟨ha, by simp [hk, hne]⟩, hk⟩

theorem adaDict_eq_keyed {ada : List AdaArticle} (ha0 : ∀ a ∈ ada, adaKey a ≠ "") :
    ∀ k, adaDict ada k = (ada.filter fun x => adaKey x == k).getLast? := by
  intro k
  unfold adaDict
  have : (ada.filter fun a => adaKey a != "") = ada := by
    rw [List.filter_eq_self]
    intro a ha
    simpa using ha0 a ha
  rw [this]

theorem adaDict_self {ada : List AdaArticle} (hnd : (ada.map adaKey).Nodup)
    (ha0 : ∀ a ∈ ada, adaKey a ≠ "") {a : AdaArticle} (ha : a ∈ ada) :
    adaDict ada (adaKey a) = some a := by
  rw [adaDict_eq_keyed ha0]
  exact keyedLast_self hnd ha

/-! ### Generic partition lemmas for the comparison outputs -/

theorem partition_union_perm {α β : Type} (P : String → Prop) [DecidablePred P]
    (u : String → Option α) (w : String → Option β) :
    ∀ E : List String, (∀ k ∈ E, (u k).isSome) → (∀ k ∈ E, P k → (w k).isSome) →
    ((E.filterMap fun k => if P k then none else u k) ++
      (E.filterMap fun k =>
        if P k then (u k).bind (fun g => (w k).map fun d => (g, d)) else none).map
        Prod.fst).Perm
      (E.filterMap u) := by
  intro E
  induction E with
  | nil => simp
  | cons k t ih =>
    intro hu hw
    obtain ⟨g, hg⟩ := Option.isSome_iff_exists.mp (hu k (by simp))
    have iht := ih (fun x hx => hu x (by simp [hx])) (fun x hx hp => hw x (by simp [hx]) hp)
    by_cases hP : P k
    · obtain ⟨d, hd⟩ := Option.isSome_iff_exists.mp (hw k (by simp) hP)
      simp only [List.filterMap_cons, if_pos hP, hg, hd, Option.bind_some,
        Option.map_some', List.map_cons, List.filterMap_cons_some]
      exact List.perm_middle.trans (List.Perm.cons g iht)
    · simp only [List.filterMap_cons, if_neg hP, hg, List.filterMap_cons_some,
        List.filterMap_cons_none, List.cons_append]
      exact List.Perm.cons g iht

theorem filterMap_ite_neg {α : Type} (P : String → Prop) [DecidablePred P]
    (v : String → Option α) :
    ∀ L : List String, (L.filterMap fun k => if P k then none else v k) =
      (L.filter fun k => !(decide (P k))).filterMap v := by
  intro L
  induction L with
  | nil => simp
  | cons k t ih =>
    by_cases hP : P k
    · simp [List.filterMap_cons, List.filter_cons, hP, ih]
    · cases hv : v k <;> simp [List.filterMap_cons, List.filter_cons, hP, hv, ih]

theorem filterMap_ite_pos {α : Type} (P : String → Prop) [DecidablePred P]
    (v : String → Option α) :
    ∀ L : List String, (L.filterMap fun k => if P k then v k else none) =
      (L.filter fun k => decide (P k)).filterMap v := by
  intro L
  induction L with
  | nil => simp
  | cons k t ih =>
    by_cases hP : P k
    · cases hv : v k <;> simp [List.filterMap_cons, List.filter_cons, hP, hv, ih]
    · simp [List.filterMap_cons, List.filter_cons, hP, ih]

theorem filterMap_key_self {α : Type} (key : α → String) (u : String → Option α) :
    ∀ l : List α, (∀ a ∈ l, u (key a) = some a) → (l.map key).filterMap u = l := by
  intro l
  induction l with
  | nil => simp
  | cons a t ih =>
    intro h
    rw [List.map_cons, List.filterMap_cons, h a (by simp)]
    rw [ih (fun x hx => h x (by simp [hx]))]

theorem length_filterMap_ite {α : Type} (P : String → Prop) [DecidablePred P]
    (w : String → Option α) :
    ∀ L : List String, (∀ k ∈ L, P k → (w k).isSome) →
    (L.filterMap fun k => if P k then w k else none).length =
      (L.filter fun k => decide (P k)).length := by
  intro L
  induction L with
  | nil => simp
  | cons k t ih =>
    intro h
    have iht := ih (fun x hx => h x (by simp [hx]))
    by_cases hP : P k
    · obtain ⟨d, hd⟩ := Option.isSome_iff_exists.mp (h k (by simp) hP)
      simp [List.filterMap_cons, List.filter_cons, hP, hd, iht]
    · simp [List.filterMap_cons, List.filter_cons, hP, iht]

/-! ### Driver loop characterisations -/

theorem bulk_delete_loop_eq (instance_name api_key : String)
    (remote : Nat → HttpResult) :
    ∀ L : List (Nat × String),
      bulk_delete_loop instance_name api_key remote L =
      ((L.filter fun q =>
          (delete_ada_article instance_name api_key q.2 (remote q.1)).1).map Prod.snd,
       (L.filter fun q =>
          !((delete_ada_article instance_name api_key q.2 (remote q.1)).1)).map
         fun q => (q.2, (delete_ada_article instance_name api_key q.2 (remote q.1)).2)) := by
  intro L
  induction L with
  | nil => simp [bulk_delete_loop]
  | cons q t ih =>
    obtain ⟨i, aid⟩ := q
    by_cases hs : (delete_ada_article instance_name api_key aid (remote i)).1 <;>
      simp [bulk_delete_loop, ih, List.filter_cons, hs]

theorem create_loop_eq (instance_name api_key : String)
    (remote : Nat → HttpResult) :
    ∀ L : List (Nat × AdaPayload),
      create_loop instance_name api_key remote L =
      ((L.filter fun q =>
          (create_ada_article_with_status instance_name api_key q.2 (remote q.1)).1).map
         fun q => (q.2, (create_ada_article_with_status instance_name api_key q.2 (remote q.1)).2),
       (L.filter fun q =>
          !((create_ada_article_with_status instance_name api_key q.2 (remote q.1)).1)).map
         fun q => (q.2, (create_ada_article_with_status instance_name api_key q.2 (remote q.1)).2)) := by
  intro L
  induction L with
  | nil => simp [create_loop]
  | cons q t ih =>
    obtain ⟨i, a⟩ := q
    by_cases hs : (create_ada_article_with_status instance_name api_key a (remote i)).1 <;>
      simp [create_loop, ih, List.filter_cons, hs]

theorem length_filter_add_not {α : Type} (p : α → Bool) (l : List α) :
    (l.filter p).length + (l.filter fun a => !(p a)).length = l.length := by
  have h := (List.filter_append_perm p l).length_eq
  simpa [List.length_append] using h

/-! ### Claim theorems -/

/-- C5: the outbound payload converter maps the article with id 7 and name
How to pay, for userType driver, locale en-ph, knowledge source ks1 and the
name prefix LIVE, to the payload stated by the spec; and in general the two
reserved userTypes moveitpassenger and moveitdriver map to the
help.moveit.com.ph domain with path segments passenger and driver, while
every other userType maps to help.grab.com with the userType itself as the
path segment. -/
theorem claim_c5 :
    (convert_to_ada_format [⟨.int 7, some "How to pay", "content"⟩] "driver"
        "en-ph" "ks1" none (some "[LIVE] ") =
      [⟨"7", "[LIVE] How to pay", "content", "ks1",
        "https://help.grab.com/driver/en-ph/7", "en-ph"⟩]) ∧
    (∀ (a : GrabArticle) (loc ks : String) (ov pre : Option String),
      (convert_to_ada_format [a] "moveitpassenger" loc ks ov pre).map AdaPayload.url =
        ["https://help.moveit.com.ph/passenger/" ++ loc ++ "/" ++ pyStr a.id]) ∧
    (∀ (a : GrabArticle) (loc ks : String) (ov pre : Option String),
      (convert_to_ada_format [a] "moveitdriver" loc ks ov pre).map AdaPayload.url =
        ["https://help.moveit.com.ph/driver/" ++ loc ++ "/" ++ pyStr a.id]) ∧
    (∀ (a : GrabArticle) (ut loc ks : String) (ov pre : Option String),
      ut ≠ "moveitpassenger" → ut ≠ "moveitdriver" →
      (convert_to_ada_format [a] ut loc ks ov pre).map AdaPayload.url =
        ["https://help.grab.com/" ++ ut ++ "/" ++ loc ++ "/" ++ pyStr a.id]) := by
  refine ⟨by decide, ?_, ?_, ?_⟩
  · intro a loc ks ov pre
    simp [convert_to_ada_format]
  · intro a loc ks ov pre
    simp [convert_to_ada_format]
  · intro a ut loc ks ov pre h1 h2
    simp [convert_to_ada_format, h1, h2]

/-- C5 witness: the general url clause evaluated at the concrete userType
driver, which is neither reserved value. -/
theorem claim_c5_witness :
    ("driver" : String) ≠ "moveitpassenger" ∧
    (convert_to_ada_format [gArt1] "driver" "en-sg" "ks1" none none).map AdaPayload.url =
      ["https://help.grab.com/" ++ "driver" ++ "/" ++ "en-sg" ++ "/" ++ pyStr gArt1.id] :=
  ⟨by decide, claim_c5.2.2.2 gArt1 "driver" "en-sg" "ks1" none none
    (by decide) (by decide)⟩

/-- C9: the classifier is deterministic first-matching-rule-wins in the
order title keyword, body keyword, id patterns, short body, leading filler
word, repeated characters, keyboard mash; on the article named Test Article
with body hi it answers true with exactly the title-keyword explanation for
the keyword test; and when no rule matches it answers false with the empty
string. -/
theorem claim_c9 :
    (is_testing_article ⟨"", "Test Article", "hi"⟩ =
      (true, "Contains test-related word " ++ sq ++ "test" ++ sq ++ " in the title")) ∧
    (is_testing_article
        ⟨"77", "How to pay for rides okay", "this is a long enough body"⟩ =
      (false, "")) ∧
    (∀ a : TArticle,
      is_testing_article a =
        match firstSome a classifier_rules with
        | some r => (true, r)
        | none => (false, "")) := by
  refine ⟨by decide, by decide, ?_⟩
  intro a
  simp only [is_testing_article, classifier_rules, firstSome]
  cases rule_title a with
  | some r => rfl
  | none =>
    cases rule_body a with
    | some r => rfl
    | none =>
      cases rule_id a with
      | some r => rfl
      | none =>
        cases rule_short a with
        | some r => rfl
        | none =>
          cases rule_filler a with
          | some r => rfl
          | none =>
            cases rule_repeat a with
            | some r => rfl
            | none =>
              cases rule_mash a with
              | some r => rfl
              | none => rfl

/-- C4 counterexample: a DELETE answered with status 202 is reported as a
success by delete_ada_article (raise_for_status only raises for 4xx/5xx),
although 202 is neither 200 nor 204 — the claim says delete succeeds exactly
on 200 or 204. -/
theorem claim_c4_counterexample :
    delete_ada_article "i" "k" "a1" (.response 202 "" "") =
      (true, "Article deleted successfully") ∧
    ¬((202 : Nat) = 200 ∨ (202 : Nat) = 204) := by
  exact ⟨by decide, by decide⟩

/-- C4 amended: the create operation reports success exactly on status 200
or 201; the delete operation reports success exactly when the response
status is not an HTTP error status (outside 400..599, so e.g. 202 also
succeeds), while only the call-log flag is restricted to 200 or 204; any
timeout or connection error is reported as a failure with the error text
captured as detail. -/
theorem claim_c4 (instance_name api_key article_id : String) (payload : AdaPayload)
    (h1 : instance_name ≠ "") (h2 : api_key ≠ "") (h3 : article_id ≠ "") :
    (∀ s body reason, (create_ada_article_with_status instance_name api_key payload
        (.response s body reason)).1 = true ↔ (s = 200 ∨ s = 201)) ∧
    (∀ s body reason, (delete_ada_article instance_name api_key article_id
        (.response s body reason)).1 = true ↔ ¬(400 ≤ s ∧ s < 600)) ∧
    (∀ s, delete_log_success s = true ↔ (s = 200 ∨ s = 204)) ∧
    (∀ m, create_ada_article_with_status instance_name api_key payload (.timeout m) =
      (false, "Request timed out")) ∧
    (∀ m, create_ada_article_with_status instance_name api_key payload (.connError m) =
      (false, "Error: " ++ m ++ ". Details: ")) ∧
    (∀ m, delete_ada_article instance_name api_key article_id (.timeout m) =
      (false, "Error: " ++ m ++ ". Details: ")) ∧
    (∀ m, delete_ada_article instance_name api_key article_id (.connError m) =
      (false, "Error: " ++ m ++ ". Details: ")) ∧
    (∀ s body reason, 400 ≤ s → s < 600 →
      delete_ada_article instance_name api_key article_id (.response s body reason) =
        (false, "Error: " ++ reason ++ ". Details: " ++ body)) ∧
    (∀ s body reason, ¬(s = 200 ∨ s = 201) →
      create_ada_article_with_status instance_name api_key payload
          (.response s body reason) =
        (false, "HTTP " ++ toString s ++ ": " ++ body)) := by
  refine ⟨?_, ?_, ?_, ?_, ?_, ?_, ?_, ?_, ?_⟩
  · intro s body reason
    by_cases hs : s = 200 ∨ s = 201 <;>
      simp [create_ada_article_with_status, h1, h2, hs]
  · intro s body reason
    by_cases hs : 400 ≤ s ∧ s < 600 <;>
      simp [delete_ada_article, raisesForStatus, h1, h2, h3, hs]
  · intro s
    simp [delete_log_success]
  · intro m; simp [create_ada_article_with_status, h1, h2]
  · intro m; simp [create_ada_article_with_status, h1, h2]
  · intro m; simp [delete_ada_article, h1, h2, h3]
  · intro m; simp [delete_ada_article, h1, h2, h3]
  · intro s body reason hs1 hs2
    simp [delete_ada_article, raisesForStatus, h1, h2, h3, hs1, hs2]
  · intro s body reason hs
    simp [create_ada_article_with_status, h1, h2, hs]

/-- C4 witness: the delete success predicate evaluated at status 503. -/
theorem claim_c4_witness :
    ("i" : String) ≠ "" ∧
    ((delete_ada_article "i" "k" "a" (.response 503 "b" "r")).1 = true ↔
      ¬(400 ≤ 503 ∧ 503 < 600)) :=
  ⟨by decide,
    (claim_c4 "i" "k" "a" somePayload (by decide) (by decide) (by decide)).2.1 503 "b" "r"⟩

/-- C2 counterexample: the bulk delete driver rejects the empty input list
with a configuration error instead of returning the report with
total_processed zero that the claim requires for every input list. -/
theorem claim_c2_counterexample :
    bulk_delete_ada_articles "i" "k" [] (fun _ => .timeout "t") =
      .error "Missing configuration or no articles to delete" := by
  rfl

/-- C2 amended: with the configuration present, the create driver (for
every payload list) and the delete driver (for every non-empty id list —
the delete driver rejects an empty list as a configuration error) process
every item in input order, a failure on one item never stopping the rest:
the reports list exactly the input-order success and failure projections
and satisfy successful + failed = total_processed = input length. -/
theorem claim_c2 (instance_name api_key knowledge_source_id
      user_type language_locale : String)
    (override_language : Option String) ( name_prefix : Option String)
    (article_ids : List String) (articles : List GrabArticle)
    (remoteD remoteC : Nat → HttpResult)
    (h1 : instance_name ≠ "") (h2 : api_key ≠ "")
    (h3 : knowledge_source_id ≠ "") (h4 : article_ids ≠ []) :
    (bulk_delete_ada_articles instance_name api_key article_ids remoteD =
      .ok { successful := (delete_successes instance_name api_key article_ids remoteD).length
            failed := (delete_failures instance_name api_key article_ids remoteD).length
            successful_deletions := delete_successes instance_name api_key article_ids remoteD
            failed_deletions := delete_failures instance_name api_key article_ids remoteD
            total_processed := article_ids.length }) ∧
    (delete_successes instance_name api_key article_ids remoteD).length +
        (delete_failures instance_name api_key article_ids remoteD).length =
      article_ids.length ∧
    (create_articles_individually_with_status articles instance_name
        knowledge_source_id api_key user_type language_locale
        override_language name_prefix remoteC =
      .ok { successful := (create_successes instance_name api_key
              (convert_to_ada_format articles user_type language_locale
                knowledge_source_id override_language name_prefix) remoteC).length
            failed := (create_failures instance_name api_key
              (convert_to_ada_format articles user_type language_locale
                knowledge_source_id override_language name_prefix) remoteC).length
            successful_uploads := create_successes instance_name api_key
              (convert_to_ada_format articles user_type language_locale
                knowledge_source_id override_language name_prefix) remoteC
            failed_uploads := create_failures instance_name api_key
              (convert_to_ada_format articles user_type language_locale
                knowledge_source_id override_language name_prefix) remoteC
            total_processed := articles.length }) ∧
    (create_successes instance_name api_key
        (convert_to_ada_format articles user_type language_locale
          knowledge_source_id override_language name_prefix) remoteC).length +
      (create_failures instance_name api_key
        (convert_to_ada_format articles user_type language_locale
          knowledge_source_id override_language name_prefix) remoteC).length =
      articles.length := by
  have hlen : (convert_to_ada_format articles user_type language_locale
      knowledge_source_id override_language name_prefix).length = articles.length := by
    simp [convert_to_ada_format]
  refine ⟨?_, ?_, ?_, ?_⟩
  · unfold bulk_delete_ada_articles
    rw [if_neg (by simp [h1, h2, h4])]
    rw [bulk_delete_loop_eq]
    rfl
  · have h := length_filter_add_not (fun q =>
      (delete_ada_article instance_name api_key q.2 (remoteD q.1)).1) article_ids.enum
    simpa [delete_successes, delete_failures, List.enum_length] using h
  · unfold create_articles_individually_with_status
    rw [if_neg (by simp [h1, h2, h3])]
    simp only [create_loop_eq, create_successes, create_failures, hlen]
  · have h := length_filter_add_not (fun q =>
      (create_ada_article_with_status instance_name api_key q.2 (remoteC q.1)).1)
      (convert_to_ada_format articles user_type language_locale
        knowledge_source_id override_language name_prefix).enum
    simpa [create_successes, create_failures, List.enum_length, hlen] using h

/-- C2 witness: a three-id delete batch whose second call gets a 500
response still processes all three ids and reports 2 successes, 1 failure,
3 processed. -/
theorem claim_c2_witness :
    (["x", "y", "z"] : List String) ≠ [] ∧
    bulk_delete_ada_articles "i" "k" ["x", "y", "z"] remoteFailSecond =
      .ok { successful := (delete_successes "i" "k" ["x", "y", "z"] remoteFailSecond).length
            failed := (delete_failures "i" "k" ["x", "y", "z"] remoteFailSecond).length
            successful_deletions := delete_successes "i" "k" ["x", "y", "z"] remoteFailSecond
            failed_deletions := delete_failures "i" "k" ["x", "y", "z"] remoteFailSecond
            total_processed := (["x", "y", "z"] : List String).length } :=
  ⟨by decide,
    (claim_c2 "i" "k" "ks" "driver" "en" none none ["x", "y", "z"] [] remoteFailSecond
      remoteFailSecond (by decide) (by decide) (by decide) (by decide)).1⟩

/-! ### Fetcher lemmas -/

theorem fetch_loop_ks_invariant (remote : Nat → PageResponse) (k : String)
    (hk : k ≠ "") :
    ∀ (fuel page req : Nat) (acc arts : List AdaArticle) (nreq : Nat) (tr : Bool),
      (∀ a ∈ acc, a.knowledge_source_id = some k) →
      fetch_loop remote (some k) fuel page acc req = .done arts nreq tr →
      ∀ a ∈ arts, a.knowledge_source_id = some k := by
  intro fuel
  induction fuel with
  | zero =>
    intro page req acc arts nreq tr hacc h
    simp [fetch_loop] at h
  | succ n ih =>
    intro page req acc arts nreq tr hacc h
    rw [fetch_loop] at h
    have hacc2 : ∀ a ∈ acc ++ ksFilter (some k) (remote page).data,
        a.knowledge_source_id = some k := by
      intro a ha
      rcases List.mem_append.mp ha with hm | hm
      · exact hacc a hm
      · simp only [ksFilter] at hm
        rw [if_neg hk] at hm
        have := List.mem_filter.mp hm
        simpa using this.2
    by_cases hst : raisesForStatus (remote page).status = true
    · rw [if_pos hst] at h
      exact absurd h (by simp)
    · rw [if_neg hst] at h
      by_cases hd : (remote page).data = []
      · rw [if_pos hd] at h
        rw [FetchOutcome.done.injEq] at h
        intro a ha
        exact hacc a (h.1 ▸ ha)
      · rw [if_neg hd] at h
        by_cases h3 : (remote page).meta.total_pages.getD 1 ≤
            (remote page).meta.current_page.getD page
        · rw [if_pos h3, FetchOutcome.done.injEq] at h
          intro a ha
          exact hacc2 a (h.1 ▸ ha)
        · rw [if_neg h3] at h
          by_cases h4 : (remote page).data.length < 100
          · rw [if_pos h4, FetchOutcome.done.injEq] at h
            intro a ha
            exact hacc2 a (h.1 ▸ ha)
          · rw [if_neg h4] at h
            by_cases h5 : 100 < page
            · rw [if_pos h5, FetchOutcome.done.injEq] at h
              intro a ha
              exact hacc2 a (h.1 ▸ ha)
            · rw [if_neg h5] at h
              exact ih (page + 1) (req + 1) _ arts nreq tr hacc2 h

/-- C10: every article accumulated by a fetch that was given a non-empty
knowledge_source_id carries exactly that knowledge_source_id — the
client-side filter drops every other record before accumulation. -/
theorem claim_c10 (instance_name api_key k : String) (remote : Nat → PageResponse)
    (arts : List AdaArticle) (req : Nat) (tr : Bool) (hk : k ≠ "")
    (h : get_ada_articles instance_name api_key (some k) remote = .done arts req tr) :
    ∀ a ∈ arts, a.knowledge_source_id = some k := by
  unfold get_ada_articles at h
  by_cases hc : instance_name = "" ∨ api_key = ""
  · rw [if_pos hc] at h
    exact absurd h (by simp)
  · rw [if_neg hc] at h
    exact fetch_loop_ks_invariant remote k hk 102 1 0 [] arts req tr (by simp) h

/-- C10 witness: fetching with knowledge source ks1 from a page holding one
ks1 article and one ks2 article accumulates only the ks1 article, and the
theorem instantiated at it gives its knowledge_source_id. -/
theorem claim_c10_witness :
    (("ks1" : String) ≠ "" ∧
      get_ada_articles "i" "k" (some "ks1") pagesKS = .done [aArt1] 1 false) ∧
    aArt1.knowledge_source_id = some "ks1" :=
  ⟨⟨by decide, by decide⟩,
    claim_c10 "i" "k" "ks1" pagesKS [aArt1] 1 false (by decide) (by decide)
      aArt1 (by decide)⟩

/-- C3 counterexample: on the page sequence of three articles, three
articles, then empty (no pagination metadata anywhere) the fetcher returns
3 accumulated articles after exactly 1 page request — not the 6 articles
and 3 requests the claim states — because absent metadata defaults to
total_pages 1 and stops the loop after the first page. -/
theorem claim_c3_counterexample :
    get_ada_articles "i" "k" none pages33 = .done [aArt1, aId2, aArt3] 1 false ∧
    ([aArt1, aId2, aArt3] : List AdaArticle).length = 3 ∧
    ((3 : Nat) ≠ 6) ∧ ((1 : Nat) ≠ 3) := by
  exact ⟨by decide, by decide, by decide, by decide⟩

/-- C3 amended: when the first page answers 200 with a non-empty article
list and no pagination metadata, the fetcher stops immediately after that
first page (current_page defaults to the page counter and total_pages to 1),
returning that page as the accumulated result with exactly one page request
and no truncation warning; in particular the three-three-zero scenario
yields 3 articles and 1 request. -/
theorem claim_c3 (instance_name api_key : String) (remote : Nat → PageResponse)
    (l : List AdaArticle) (h1 : instance_name ≠ "") (h2 : api_key ≠ "")
    (hpage : remote 1 = ⟨200, l, ⟨none, none⟩⟩) (hl : l ≠ []) :
    get_ada_articles instance_name api_key none remote = .done l 1 false := by
  unfold get_ada_articles
  rw [if_neg (by simp [h1, h2])]
  rw [show (102 : Nat) = 101 + 1 from rfl]
  rw [fetch_loop, hpage]
  simp [raisesForStatus, hl, ksFilter]

/-- C3 witness: the amended statement evaluated on the concrete
three-three-zero page stream. -/
theorem claim_c3_witness :
    (pages33 1 = ⟨200, [aArt1, aId2, aArt3], ⟨none, none⟩⟩ ∧
      ([aArt1, aId2, aArt3] : List AdaArticle) ≠ []) ∧
    get_ada_articles "i" "k" none pages33 = .done [aArt1, aId2, aArt3] 1 false :=
  ⟨⟨by decide, by decide⟩,
    claim_c3 "i" "k" pages33 [aArt1, aId2, aArt3] (by decide) (by decide)
      (by decide) (by decide)⟩

/-- C8 counterexample: a page stream that never returns an empty page,
never a non-200 status and never any end-of-pagination metadata makes the
fetcher stop after a single page request with no truncation warning —
not at the 100-page ceiling with a warning as the claim states — because
the metadata defaults already terminate the loop. -/
theorem claim_c8_counterexample :
    get_ada_articles "i" "k" none pagesNoMeta = .done [aArt1, aId2, aArt3] 1 false ∧
    ((1 : Nat) ≠ 100) ∧ (false ≠ true) := by
  exact ⟨by decide, by decide, by decide⟩

theorem fetch_loop_full_pages (remote : Nat → PageResponse)
    (h : ∀ p, 1 ≤ p → p ≤ 101 → (remote p).status = 200 ∧
      (remote p).data.length = 100 ∧
      (remote p).meta.current_page.getD p < (remote p).meta.total_pages.getD 1) :
    ∀ (fuel page : Nat) (acc : List AdaArticle) (req : Nat),
      1 ≤ page → page ≤ 101 → 102 - page ≤ fuel →
      fetch_loop remote none fuel page acc req =
        .done (acc ++ ((List.range (102 - page)).map fun j => (remote (page + j)).data).flatten)
          (req + (102 - page)) true := by
  intro fuel
  induction fuel with
  | zero => intro page acc req hp1 hp2 hp3; omega
  | succ n ih =>
    intro page acc req hp1 hp2 hp3
    obtain ⟨hs, hlen, hcont⟩ := h page hp1 hp2
    rw [fetch_loop]
    have hr : ¬ raisesForStatus (remote page).status = true := by
      rw [hs]; decide
    rw [if_neg hr]
    have hne : ¬ (remote page).data = [] := by
      intro he; rw [he] at hlen; simp at hlen
    rw [if_neg hne]
    have hlt : ¬ ((remote page).meta.total_pages.getD 1 ≤
        (remote page).meta.current_page.getD page) := by omega
    rw [if_neg hlt]
    have hshort : ¬ ((remote page).data.length < 100) := by omega
    rw [if_neg hshort]
    by_cases hlast : 100 < page
    · have h101 : page = 101 := by omega
      subst h101
      rw [if_pos hlast]
      have : (102 : Nat) - 101 = 1 := by norm_num
      rw [this]
      simp [ksFilter, List.range_succ_eq_map]
    · rw [if_neg hlast]
      rw [ih (page + 1) (acc ++ ksFilter none (remote page).data) (req + 1)
        (by omega) (by omega) (by omega)]
      have hsplit : (102 : Nat) - page = (101 - page) + 1 := by omega
      rw [FetchOutcome.done.injEq]
      refine ⟨?_, by omega, rfl⟩
      rw [hsplit, List.range_succ_eq_map, List.map_cons, List.flatten_cons,
        List.map_map, List.append_assoc]
      have harg : ((List.range (101 - page)).map
            ((fun j => (remote (page + j)).data) ∘ Nat.succ)) =
          (List.range (102 - (page + 1))).map fun j => (remote (page + 1 + j)).data := by
        have : (102 : Nat) - (page + 1) = 101 - page := by omega
        rw [this]
        refine List.map_eq_map_iff.mpr ?_
        intro j _
        simp only [Function.comp]
        have : page + Nat.succ j = page + 1 + j := by omega
        rw [this]
      rw [harg]
      simp [ksFilter]

/-- C8 amended: the runaway guard exists but differs from the claim in both
trigger and count: a stream of full pages (100 articles each) whose
metadata always announces further pages is stopped by the page_count check
only after the 101st page request, returning the articles of pages 1..101
with the truncation warning; while a stream with no end-of-pagination
metadata at all (the premise of the claim) stops after page 1 via the
metadata defaults and never reaches the ceiling. -/
theorem claim_c8 (instance_name api_key : String) (remote : Nat → PageResponse)
    (h1 : instance_name ≠ "") (h2 : api_key ≠ "")
    (h : ∀ p, 1 ≤ p → p ≤ 101 → (remote p).status = 200 ∧
      (remote p).data.length = 100 ∧
      (remote p).meta.current_page.getD p < (remote p).meta.total_pages.getD 1) :
    get_ada_articles instance_name api_key none remote =
      .done (((List.range 101).map fun j => (remote (1 + j)).data).flatten) 101 true := by
  unfold get_ada_articles
  rw [if_neg (by simp [h1, h2])]
  have := fetch_loop_full_pages remote h 102 1 [] 0 (by omega) (by omega) (by omega)
  simpa using this

/-- C8 witness: the amended ceiling behaviour evaluated on the concrete
always-full page stream. -/
theorem claim_c8_witness :
    ("i" : String) ≠ "" ∧
    get_ada_articles "i" "k" none pagesFull =
      .done (((List.range 101).map fun j => (pagesFull (1 + j)).data).flatten) 101 true :=
  ⟨by decide,
    claim_c8 "i" "k" pagesFull (by decide) (by decide)
      (fun p hp1 hp2 => ⟨rfl, by simp [pagesFull], by simp [pagesFull]⟩)⟩

/-! ### Reconciliation lemmas -/

theorem compare_grab_ids (orderG orderA : List String → List String)
    (grab : List GrabArticle) (ada : List AdaArticle) :
    (compare_articles_detailed orderG orderA grab ada).grab_ids =
      insertAll [] (grab.map grabKey) := rfl

theorem compare_ada_ids (orderG orderA : List String → List String)
    (grab : List GrabArticle) (ada : List AdaArticle) :
    (compare_articles_detailed orderG orderA grab ada).ada_ids =
      insertAll [] ((ada.map adaKey).filter fun k => k != "") := rfl

theorem compare_to_delete (orderG orderA : List String → List String)
    (grab : List GrabArticle) (ada : List AdaArticle) :
    (compare_articles_detailed orderG orderA grab ada).articles_to_delete =
      (orderA (insertAll [] ((ada.map adaKey).filter fun k => k != ""))).filterMap
        fun k => if k ∈ insertAll [] (grab.map grabKey) then none
          else adaDict ada k := rfl

theorem compare_to_add (orderG orderA : List String → List String)
    (grab : List GrabArticle) (ada : List AdaArticle) :
    (compare_articles_detailed orderG orderA grab ada).articles_to_add =
      (orderG (insertAll [] (grab.map grabKey))).filterMap
        fun k => if k ∈ insertAll [] ((ada.map adaKey).filter fun x => x != "") then none
          else grabDict grab k := rfl

theorem compare_existing (orderG orderA : List String → List String)
    (grab : List GrabArticle) (ada : List AdaArticle) :
    (compare_articles_detailed orderG orderA grab ada).articles_existing =
      (orderG (insertAll [] (grab.map grabKey))).filterMap
        fun k => if k ∈ insertAll [] ((ada.map adaKey).filter fun x => x != "") then
            (grabDict grab k).bind fun g => (adaDict ada k).map fun d => (g, d)
          else none := rfl

theorem mem_gids_iff {grab : List GrabArticle} {k : String} :
    k ∈ insertAll [] (grab.map grabKey) ↔ ∃ a ∈ grab, grabKey a = k := by
  rw [mem_insertAll]
  simp [List.mem_map]

theorem mem_aids_iff {ada : List AdaArticle} {k : String} :
    k ∈ insertAll [] ((ada.map adaKey).filter fun x => x != "") ↔
      (∃ a ∈ ada, adaKey a = k) ∧ k ≠ "" := by
  rw [mem_insertAll]
  simp [List.mem_filter, List.mem_map, bne_iff_ne]

theorem aids_eq {ada : List AdaArticle} (ha : (ada.map adaKey).Nodup)
    (ha0 : ∀ a ∈ ada, adaKey a ≠ "") :
    insertAll [] ((ada.map adaKey).filter fun x => x != "") = ada.map adaKey := by
  have hf : ((ada.map adaKey).filter fun x => x != "") = ada.map adaKey := by
    rw [List.filter_eq_self]
    intro k hk
    obtain ⟨a, haa, rfl⟩ := List.mem_map.mp hk
    simpa using ha0 a haa
  rw [hf]
  exact insertAll_nil_eq ha

theorem grabDict_isSome_of_mem {grab : List GrabArticle} {k : String}
    (h : k ∈ insertAll [] (grab.map grabKey)) : (grabDict grab k).isSome :=
  grabDict_isSome (mem_gids_iff.mp h)

theorem adaDict_isSome_of_mem {ada : List AdaArticle} {k : String}
    (h : k ∈ insertAll [] ((ada.map adaKey).filter fun x => x != "")) :
    (adaDict ada k).isSome := by
  obtain ⟨⟨a, ha, hk⟩, hne⟩ := mem_aids_iff.mp h
  exact adaDict_isSome ⟨a, ha, hk, hne⟩

theorem filterMap_dict_grab {grab : List GrabArticle}
    (hg : (grab.map grabKey).Nodup) (p : String → Bool) :
    ((grab.map grabKey).filter p).filterMap (grabDict grab) =
      grab.filter fun a => p (grabKey a) := by
  rw [List.filter_map]
  have := filterMap_key_self grabKey (grabDict grab)
    (grab.filter fun a => p (grabKey a))
    (fun a ha => grabDict_self hg (List.mem_of_mem_filter ha))
  simpa [Function.comp] using this

theorem filterMap_dict_ada {ada : List AdaArticle}
    (ha : (ada.map adaKey).Nodup) (ha0 : ∀ a ∈ ada, adaKey a ≠ "")
    (p : String → Bool) :
    ((ada.map adaKey).filter p).filterMap (adaDict ada) =
      ada.filter fun a => p (adaKey a) := by
  rw [List.filter_map]
  have := filterMap_key_self adaKey (adaDict ada)
    (ada.filter fun a => p (adaKey a))
    (fun a ha2 => adaDict_self ha ha0 (List.mem_of_mem_filter ha2))
  simpa [Function.comp] using this

theorem toAdd_perm (orderG orderA : List String → List String)
    (grab : List GrabArticle) (ada : List AdaArticle)
    (horderG : ∀ l, (orderG l).Perm l) (hg : (grab.map grabKey).Nodup) :
    (compare_articles_detailed orderG orderA grab ada).articles_to_add.Perm
      (grab.filter fun a => !(decide (grabKey a ∈
        insertAll [] ((ada.map adaKey).filter fun x => x != "")))) := by
  rw [compare_to_add]
  have h1 := List.Perm.filterMap
    (fun k => if k ∈ insertAll [] ((ada.map adaKey).filter fun x => x != "") then none
      else grabDict grab k)
    (horderG (insertAll [] (grab.map grabKey)))
  refine h1.trans ?_
  rw [insertAll_nil_eq hg]
  rw [filterMap_ite_neg (fun k => k ∈ insertAll [] ((ada.map adaKey).filter fun x => x != ""))
    (grabDict grab)]
  rw [filterMap_dict_grab hg]

theorem existing_fst_perm (orderG orderA : List String → List String)
    (grab : List GrabArticle) (ada : List AdaArticle)
    (horderG : ∀ l, (orderG l).Perm l) (hg : (grab.map grabKey).Nodup) :
    ((compare_articles_detailed orderG orderA grab ada).articles_existing.map
        Prod.fst).Perm
      (grab.filter fun a => decide (grabKey a ∈
        insertAll [] ((ada.map adaKey).filter fun x => x != ""))) := by
  rw [compare_existing, List.map_filterMap]
  have hcongr : ((orderG (insertAll [] (grab.map grabKey))).filterMap fun k =>
      ((if k ∈ insertAll [] ((ada.map adaKey).filter fun x => x != "") then
          (grabDict grab k).bind fun g => (adaDict ada k).map fun d => (g, d)
        else none).map Prod.fst)) =
      (orderG (insertAll [] (grab.map grabKey))).filterMap fun k =>
        if k ∈ insertAll [] ((ada.map adaKey).filter fun x => x != "") then
          grabDict grab k else none := by
    refine List.filterMap_congr ?_
    intro k hk
    by_cases hP : k ∈ insertAll [] ((ada.map adaKey).filter fun x => x != "")
    · rw [if_pos hP, if_pos hP]
      have hku : k ∈ insertAll [] (grab.map grabKey) :=
        ((horderG (insertAll [] (grab.map grabKey))).mem_iff).mp hk
      obtain ⟨g, hgq⟩ := Option.isSome_iff_exists.mp (grabDict_isSome_of_mem hku)
      obtain ⟨d, hdq⟩ := Option.isSome_iff_exists.mp (adaDict_isSome_of_mem hP)
      rw [hgq, hdq]
      simp
    · rw [if_neg hP, if_neg hP]
      simp
  rw [hcongr]
  have h1 := List.Perm.filterMap
    (fun k => if k ∈ insertAll [] ((ada.map adaKey).filter fun x => x != "") then
      grabDict grab k else none)
    (horderG (insertAll [] (grab.map grabKey)))
  refine h1.trans ?_
  rw [insertAll_nil_eq hg]
  rw [filterMap_ite_pos (fun k => k ∈ insertAll [] ((ada.map adaKey).filter fun x => x != ""))
    (grabDict grab)]
  rw [filterMap_dict_grab hg]

theorem toDelete_perm (orderG orderA : List String → List String)
    (grab : List GrabArticle) (ada : List AdaArticle)
    (horderA : ∀ l, (orderA l).Perm l) (ha : (ada.map adaKey).Nodup)
    (ha0 : ∀ a ∈ ada, adaKey a ≠ "") :
    (compare_articles_detailed orderG orderA grab ada).articles_to_delete.Perm
      (ada.filter fun a => !(decide (adaKey a ∈ insertAll [] (grab.map grabKey)))) := by
  rw [compare_to_delete]
  have h1 := List.Perm.filterMap
    (fun k => if k ∈ insertAll [] (grab.map grabKey) then none else adaDict ada k)
    (horderA (insertAll [] ((ada.map adaKey).filter fun k => k != "")))
  refine h1.trans ?_
  rw [aids_eq ha ha0]
  rw [filterMap_ite_neg (fun k => k ∈ insertAll [] (grab.map grabKey)) (adaDict ada)]
  rw [filterMap_dict_ada ha ha0]

theorem existing_snd_perm (orderG orderA : List String → List String)
    (grab : List GrabArticle) (ada : List AdaArticle)
    (horderG : ∀ l, (orderG l).Perm l) (hg : (grab.map grabKey).Nodup)
    (ha : (ada.map adaKey).Nodup) (ha0 : ∀ a ∈ ada, adaKey a ≠ "") :
    ((compare_articles_detailed orderG orderA grab ada).articles_existing.map
        Prod.snd).Perm
      (ada.filter fun a => decide (adaKey a ∈ insertAll [] (grab.map grabKey))) := by
  rw [compare_existing, List.map_filterMap]
  have hcongr : ((orderG (insertAll [] (grab.map grabKey))).filterMap fun k =>
      ((if k ∈ insertAll [] ((ada.map adaKey).filter fun x => x != "") then
          (grabDict grab k).bind fun g => (adaDict ada k).map fun d => (g, d)
        else none).map Prod.snd)) =
      (orderG (insertAll [] (grab.map grabKey))).filterMap fun k =>
        if k ∈ insertAll [] ((ada.map adaKey).filter fun x => x != "") then
          adaDict ada k else none := by
    refine List.filterMap_congr ?_
    intro k hk
    by_cases hP : k ∈ insertAll [] ((ada.map adaKey).filter fun x => x != "")
    · rw [if_pos hP, if_pos hP]
      have hku : k ∈ insertAll [] (grab.map grabKey) :=
        ((horderG (insertAll [] (grab.map grabKey))).mem_iff).mp hk
      obtain ⟨g, hgq⟩ := Option.isSome_iff_exists.mp (grabDict_isSome_of_mem hku)
      obtain ⟨d, hdq⟩ := Option.isSome_iff_exists.mp (adaDict_isSome_of_mem hP)
      rw [hgq, hdq]
      simp
    · rw [if_neg hP, if_neg hP]
      simp
  rw [hcongr]
  have h1 := List.Perm.filterMap
    (fun k => if k ∈ insertAll [] ((ada.map adaKey).filter fun x => x != "") then
      adaDict ada k else none)
    (horderG (insertAll [] (grab.map grabKey)))
  refine h1.trans ?_
  -- over the canonical grab id list, restricted to keys also present in aids;
  -- exchange the enumerating side using nodup extensionality
  rw [insertAll_nil_eq hg]
  rw [filterMap_ite_pos (fun k => k ∈ insertAll [] ((ada.map adaKey).filter fun x => x != ""))
    (adaDict ada)]
  have hG2A2 : ((grab.map grabKey).filter fun k =>
      decide (k ∈ insertAll [] ((ada.map adaKey).filter fun x => x != ""))).Perm
      ((ada.map adaKey).filter fun k => decide (k ∈ insertAll [] (grab.map grabKey))) := by
    rw [List.perm_ext_iff_of_nodup (hg.filter _) (ha.filter _)]
    intro k
    simp only [List.mem_filter, decide_eq_true_eq]
    constructor
    · rintro ⟨hkg, hka⟩
      rw [aids_eq ha ha0] at hka
      exact ⟨hka, by rw [insertAll_nil_eq hg]; exact hkg⟩
    · rintro ⟨hka, hkg⟩
      rw [insertAll_nil_eq hg] at hkg
      exact ⟨hkg, by rw [aids_eq ha ha0]; exact hka⟩
  refine (List.Perm.filterMap (adaDict ada) hG2A2).trans ?_
  rw [filterMap_dict_ada ha ha0, insertAll_nil_eq hg]

/-- C6 counterexample: a destination record with a missing id is dropped by
the comparison — it is excluded from ada_ids and appears in no partition —
instead of being kept under a shared empty-string key as the claim states
(a second record with a real id still participates normally). -/
theorem claim_c6_counterexample :
    (compare_articles_detailed id id [] [aNoId, aArt1]).articles_to_delete = [aArt1] ∧
    (compare_articles_detailed id id [] [aNoId, aArt1]).articles_existing = [] ∧
    (compare_articles_detailed id id [] [aNoId, aArt1]).articles_to_add = [] ∧
    (compare_articles_detailed id id [] [aNoId, aArt1]).ada_ids = ["a1"] := by
  exact ⟨by decide, by decide, by decide, by decide⟩

/-- C6 amended: destination records whose id is missing or empty are
silently skipped, not bucketed: the empty string never enters ada_ids, and
no record of the orphaned partition or destination side of the existing
partition has an empty key — the comparison does not crash, but such
records participate in no partition. -/
theorem claim_c6 (orderG orderA : List String → List String)
    (grab : List GrabArticle) (ada : List AdaArticle) :
    "" ∉ (compare_articles_detailed orderG orderA grab ada).ada_ids ∧
    (∀ b ∈ (compare_articles_detailed orderG orderA grab ada).articles_to_delete,
      adaKey b ≠ "") ∧
    (∀ p ∈ (compare_articles_detailed orderG orderA grab ada).articles_existing,
      adaKey p.2 ≠ "") := by
  refine ⟨?_, ?_, ?_⟩
  · rw [compare_ada_ids]
    intro hmem
    obtain ⟨⟨a, ha, hk⟩, hne⟩ := mem_aids_iff.mp hmem
    exact hne rfl
  · intro b hb
    rw [compare_to_delete] at hb
    obtain ⟨k, hk, hsome⟩ := List.mem_filterMap.mp hb
    by_cases hgm : k ∈ insertAll [] (grab.map grabKey)
    · rw [if_pos hgm] at hsome
      exact absurd hsome (by simp)
    · rw [if_neg hgm] at hsome
      exact (adaDict_some hsome).2.2
  · intro p hp
    rw [compare_existing] at hp
    obtain ⟨k, hk, hsome⟩ := List.mem_filterMap.mp hp
    by_cases ham : k ∈ insertAll [] ((ada.map adaKey).filter fun x => x != "")
    · rw [if_pos ham] at hsome
      cases hgq : grabDict grab k with
      | none => rw [hgq] at hsome; simp at hsome
      | some g =>
        rw [hgq] at hsome
        cases hdq : adaDict ada k with
        | none => rw [hdq] at hsome; simp at hsome
        | some d =>
          rw [hdq] at hsome
          obtain rfl : (g, d) = p := by simpa using hsome
          exact (adaDict_some hdq).2.2
    · rw [if_neg ham] at hsome
      exact absurd hsome (by simp)

/-- C7 counterexample: reversal is a legitimate enumeration of the grab id
set (a permutation of its distinct keys), and under it the new-articles
partition comes out as gArt2 then gArt1, the reverse of the input iteration
order — the materialised sequences follow the unspecified set iteration
order, not the input order the claim states. -/
theorem claim_c7_counterexample :
    (List.reverse ["1", "2"]).Perm ["1", "2"] ∧
    (compare_articles_detailed List.reverse List.reverse
        [gArt1, gArt2] []).grab_ids = ["1", "2"] ∧
    (compare_articles_detailed List.reverse List.reverse
        [gArt1, gArt2] []).articles_to_add = [gArt2, gArt1] ∧
    [gArt2, gArt1] ≠ [gArt1, gArt2] := by
  exact ⟨by decide, by decide, by decide, by decide⟩

/-- C7 amended: the partitions lose and duplicate nothing — for id-distinct
inputs each output sequence is a permutation of the order-preserved filtered
input collection — but its order is the Python set iteration order of the
id set (modelled by the enumeration parameters, constrained only to
enumerate the distinct keys), which need not be the input iteration
order. -/
theorem claim_c7 (orderG orderA : List String → List String)
    (grab : List GrabArticle) (ada : List AdaArticle) (r : CompareResult)
    (horderG : ∀ l, (orderG l).Perm l) (horderA : ∀ l, (orderA l).Perm l)
    (hg : (grab.map grabKey).Nodup) (ha : (ada.map adaKey).Nodup)
    (ha0 : ∀ a ∈ ada, adaKey a ≠ "")
    (hr : r = compare_articles_detailed orderG orderA grab ada) :
    r.articles_to_add.Perm
      (grab.filter fun a => !(decide (grabKey a ∈ r.ada_ids))) ∧
    (r.articles_existing.map Prod.fst).Perm
      (grab.filter fun a => decide (grabKey a ∈ r.ada_ids)) ∧
    r.articles_to_delete.Perm
      (ada.filter fun a => !(decide (adaKey a ∈ r.grab_ids))) ∧
    (r.articles_existing.map Prod.snd).Perm
      (ada.filter fun a => decide (adaKey a ∈ r.grab_ids)) := by
  subst hr
  rw [compare_ada_ids, compare_grab_ids]
  exact ⟨toAdd_perm orderG orderA grab ada horderG hg,
    existing_fst_perm orderG orderA grab ada horderG hg,
    toDelete_perm orderG orderA grab ada horderA ha ha0,
    existing_snd_perm orderG orderA grab ada horderG hg ha ha0⟩

/-- C7 witness: the amended characterisation instantiated at the identity
enumeration on two id-distinct grab articles and no destination
articles. -/
theorem claim_c7_witness :
    (List.map grabKey [gArt1, gArt2]).Nodup ∧
    (compare_articles_detailed id id [gArt1, gArt2] []).articles_to_add.Perm
      ([gArt1, gArt2].filter fun a => !(decide (grabKey a ∈
        (compare_articles_detailed id id [gArt1, gArt2] []).ada_ids))) :=
  ⟨by decide,
    (claim_c7 id id [gArt1, gArt2] []
      (compare_articles_detailed id id [gArt1, gArt2] [])
      (fun l => List.Perm.refl l) (fun l => List.Perm.refl l)
      (by decide) (by decide) (by decide) rfl).1⟩

/-- C1 counterexample: with no source articles and a single destination
record whose id key is missing, both the orphaned partition and the
destination side of the existing partition are empty, so their union is not
the destination collection — the record was dropped, contradicting the
claimed dest-side partition equation. -/
theorem claim_c1_counterexample :
    ((compare_articles_detailed id id [] [aNoId]).articles_to_delete ++
      (compare_articles_detailed id id [] [aNoId]).articles_existing.map Prod.snd) =
      ([] : List AdaArticle) ∧
    ¬ (([] : List AdaArticle).Perm [aNoId]) := by
  exact ⟨by decide, by decide⟩

/-- C1 amended: for source collections with pairwise-distinct normalized
ids and destination collections with pairwise-distinct non-empty normalized
ids (records with missing or empty ids are dropped, and duplicate ids
collapse into the last record, so the equations fail otherwise), and any
set enumerations, reconciliation partitions the inputs: new plus the source
side of existing is S, orphaned plus the destination side of existing is D
(both as multisets), new and the existing source side share no article, the
partition key sets exactly cover sourceIds union destinationIds, and the
existing count is the cardinality of their intersection. -/
theorem claim_c1 (orderG orderA : List String → List String)
    (grab : List GrabArticle) (ada : List AdaArticle) (r : CompareResult)
    (horderG : ∀ l, (orderG l).Perm l) (horderA : ∀ l, (orderA l).Perm l)
    (hg : (grab.map grabKey).Nodup) (ha : (ada.map adaKey).Nodup)
    (ha0 : ∀ a ∈ ada, adaKey a ≠ "")
    (hr : r = compare_articles_detailed orderG orderA grab ada) :
    ((r.articles_to_add ++ r.articles_existing.map Prod.fst).Perm grab) ∧
    ((r.articles_to_delete ++ r.articles_existing.map Prod.snd).Perm ada) ∧
    (∀ a ∈ r.articles_to_add, a ∉ r.articles_existing.map Prod.fst) ∧
    (∀ k : String, (k ∈ r.articles_to_add.map grabKey ∨
        k ∈ r.articles_to_delete.map adaKey ∨
        k ∈ r.articles_existing.map fun q => grabKey q.1) ↔
      (k ∈ r.grab_ids ∨ k ∈ r.ada_ids)) ∧
    r.articles_existing.length = (r.grab_ids ∩ r.ada_ids).length := by
  subst hr
  have hAdd := toAdd_perm orderG orderA grab ada horderG hg
  have hExF := existing_fst_perm orderG orderA grab ada horderG hg
  have hDel := toDelete_perm orderG orderA grab ada horderA ha ha0
  have hExS := existing_snd_perm orderG orderA grab ada horderG hg ha ha0
  refine ⟨?_, ?_, ?_, ?_, ?_⟩
  · exact (hAdd.append hExF).trans
      (List.perm_append_comm.trans (List.filter_append_perm _ grab))
  · exact (hDel.append hExS).trans
      (List.perm_append_comm.trans (List.filter_append_perm _ ada))
  · intro a haAdd haEx
    have h1 := (List.mem_filter.mp ((hAdd.mem_iff).mp haAdd)).2
    have h2 := (List.mem_filter.mp ((hExF.mem_iff).mp haEx)).2
    simp only [Bool.not_eq_true', decide_eq_false_iff_not] at h1
    simp only [decide_eq_true_eq] at h2
    exact h1 h2
  · intro k
    constructor
    · rintro (hk | hk | hk)
      · obtain ⟨a, haf, rfl⟩ := List.mem_map.mp (((hAdd.map grabKey).mem_iff).mp hk)
        left
        rw [compare_grab_ids]
        exact mem_gids_iff.mpr ⟨a, List.mem_of_mem_filter haf, rfl⟩
      · obtain ⟨b, hbf, rfl⟩ := List.mem_map.mp (((hDel.map adaKey).mem_iff).mp hk)
        right
        rw [compare_ada_ids]
        exact mem_aids_iff.mpr ⟨⟨b, List.mem_of_mem_filter hbf, rfl⟩,
          ha0 b (List.mem_of_mem_filter hbf)⟩
      · have hk2 : k ∈ ((compare_articles_detailed orderG orderA grab
            ada).articles_existing.map Prod.fst).map grabKey := by
          simpa [List.map_map, Function.comp] using hk
        obtain ⟨a, haf, rfl⟩ := List.mem_map.mp (((hExF.map grabKey).mem_iff).mp hk2)
        left
        rw [compare_grab_ids]
        exact mem_gids_iff.mpr ⟨a, List.mem_of_mem_filter haf, rfl⟩
    · rintro (hk | hk)
      · rw [compare_grab_ids] at hk
        obtain ⟨a, haG, rfl⟩ := mem_gids_iff.mp hk
        by_cases hA : grabKey a ∈
            insertAll [] ((ada.map adaKey).filter fun x => x != "")
        · right; right
          have hmf : a ∈ grab.filter fun x => decide (grabKey x ∈
              insertAll [] ((ada.map adaKey).filter fun y => y != "")) :=
            List.mem_filter.mpr ⟨haG, by simpa using hA⟩
          have hmm : grabKey a ∈ ((compare_articles_detailed orderG orderA grab
              ada).articles_existing.map Prod.fst).map grabKey :=
            ((hExF.map grabKey).mem_iff).mpr (List.mem_map.mpr ⟨a, hmf, rfl⟩)
          simpa [List.map_map, Function.comp] using hmm
        · left
          exact List.mem_map.mpr ⟨a,
            (hAdd.mem_iff).mpr (List.mem_filter.mpr ⟨haG, by simpa using hA⟩), rfl⟩
      · rw [compare_ada_ids] at hk
        obtain ⟨⟨b, hbA, rfl⟩, hne⟩ := mem_aids_iff.mp hk
        by_cases hG : adaKey b ∈ insertAll [] (grab.map grabKey)
        · right; right
          obtain ⟨a2, ha2, hkeq⟩ := mem_gids_iff.mp hG
          have hmf : a2 ∈ grab.filter fun x => decide (grabKey x ∈
              insertAll [] ((ada.map adaKey).filter fun y => y != "")) :=
            List.mem_filter.mpr ⟨ha2, by rw [hkeq]; simpa using hk⟩
          have hmm : adaKey b ∈ ((compare_articles_detailed orderG orderA grab
              ada).articles_existing.map Prod.fst).map grabKey :=
            ((hExF.map grabKey).mem_iff).mpr (List.mem_map.mpr ⟨a2, hmf, hkeq⟩)
          simpa [List.map_map, Function.comp] using hmm
        · right; left
          exact List.mem_map.mpr ⟨b,
            (hDel.mem_iff).mpr (List.mem_filter.mpr ⟨hbA, by simpa using hG⟩), rfl⟩
  · have h1 : (compare_articles_detailed orderG orderA grab
        ada).articles_existing.length =
        (grab.filter fun a => decide (grabKey a ∈
          insertAll [] ((ada.map adaKey).filter fun x => x != ""))).length := by
      calc (compare_articles_detailed orderG orderA grab
          ada).articles_existing.length
         = ((compare_articles_detailed orderG orderA grab
            ada).articles_existing.map Prod.fst).length := (List.length_map _ _).symm
       _ = _ := hExF.length_eq
    rw [h1, compare_grab_ids, compare_ada_ids, insertAll_nil_eq hg, List.inter_def]
    have h2 := @List.filter_map GrabArticle String
      (fun x => List.elem x (insertAll [] ((List.map adaKey ada).filter fun x => x != "")))
      grabKey grab
    rw [h2, List.length_map]
    congr 1
    refine List.filter_congr ?_
    intro a _
    simp [List.elem_eq_mem, Function.comp]

/-- C1 amended witness: the partition equations instantiated at the
identity enumeration, one grab article with id 2 and two destination
articles with ids 2 and 3. -/
theorem claim_c1_witness :
    (∀ a ∈ [aId2, aId3], adaKey a ≠ "") ∧
    (((compare_articles_detailed id id [gArt2] [aId2, aId3]).articles_to_add ++
      (compare_articles_detailed id id [gArt2]
        [aId2, aId3]).articles_existing.map Prod.fst).Perm [gArt2]) :=
  ⟨by decide,
    (claim_c1 id id [gArt2] [aId2, aId3]
      (compare_articles_detailed id id [gArt2] [aId2, aId3])
      (fun l => List.Perm.refl l) (fun l => List.Perm.refl l)
      (by decide) (by decide) (by decide) rfl).1⟩

end GrabAdaKB
